import Mathlib

/-!
Verification of the PrepWise interview-evaluation core: a shallow embedding of
the answer quality gate, the evaluation consistency enforcement, the behavioral
signal aggregation, the interview lifecycle and the final-result compilation,
together with theorems settling the specification claims about them.

Text is modelled as `List Char`; JavaScript numbers as `ℚ` (with an explicit
NaN alternative where the code tests `isNaN`); `Math.round x` as `⌊x + 1/2⌋`;
`Math.floor` of a division as `Int.fdiv`.
-/

namespace PrepWise

/-- JS `Math.round`: round half toward positive infinity, i.e. `⌊x + 1/2⌋`. -/
def jsRound (q : ℚ) : ℤ := ⌊q + 1/2⌋

/-- JS `\s` (the common ASCII cases): space, tab, newline, carriage return,
vertical tab, form feed. -/
def isWsChar (c : Char) : Bool :=
  c = ' ' || c = '\t' || c = '\n' || c = '\r' || c = '\x0b' || c = '\x0c'

/-- A lowercase ASCII letter, the `[a-z]` character class. -/
def isLowerLetter (c : Char) : Bool := decide ('a' ≤ c ∧ c ≤ 'z')

/-- An ASCII letter, the `[a-zA-Z]` character class. -/
def isAsciiLetter (c : Char) : Bool :=
  decide ('a' ≤ c ∧ c ≤ 'z') || decide ('A' ≤ c ∧ c ≤ 'Z')

/-- JS `String.prototype.toLowerCase` restricted to ASCII. -/
def toLowerTxt (l : List Char) : List Char := l.map Char.toLower

/-- JS `String.prototype.trim`: strip leading and trailing whitespace. -/
def trimTxt (l : List Char) : List Char :=
  ((l.dropWhile isWsChar).reverse.dropWhile isWsChar).reverse

/-- Whether `needle` occurs at the start of `hay`. -/
def startsWithTxt : List Char → List Char → Bool
  | [], _ => true
  | _ :: _, [] => false
  | a :: as, b :: bs => decide (a = b) && startsWithTxt as bs

/-- JS `String.prototype.includes`: `needle` occurs contiguously in `hay`. -/
def containsTxt (needle : List Char) : List Char → Bool
  | [] => needle.isEmpty
  | c :: rest => startsWithTxt needle (c :: rest) || containsTxt needle rest

/-- JS `str.split(' ')`: split on each single space, keeping empty pieces. -/
def splitOnSpaceAux : List Char → List Char → List (List Char)
  | [], acc => [acc.reverse]
  | c :: rest, acc =>
    if c = ' ' then acc.reverse :: splitOnSpaceAux rest []
    else splitOnSpaceAux rest (c :: acc)

def splitOnSpace (l : List Char) : List (List Char) := splitOnSpaceAux l []

theorem dropWhileLenLe (p : Char → Bool) : ∀ l : List Char, (l.dropWhile p).length ≤ l.length
  | [] => Nat.le_refl _
  | a :: t => by
    rw [List.dropWhile_cons]
    split
    · exact Nat.le_succ_of_le (dropWhileLenLe p t)
    · exact Nat.le_refl _

/-- Length of the leading `[a-z]` run. -/
def letterRunLen (l : List Char) : Nat := (l.takeWhile isLowerLetter).length

/-- Remainder after the leading `[a-z]` run. -/
def afterLetterRun (l : List Char) : List Char := l.dropWhile isLowerLetter

/-- The repeating part of `/^[a-z]{1,3}(\s[a-z]{1,3}){5,}$/`: consume
`(\s[a-z]{1,3})` groups, counting them, and require at least five at the end. -/
def shortWordLoop : List Char → Nat → Bool
  | [], n => decide (5 ≤ n)
  | c :: rest, n =>
    if isWsChar c then
      if 1 ≤ letterRunLen rest ∧ letterRunLen rest ≤ 3 then
        shortWordLoop (afterLetterRun rest) (n + 1)
      else false
    else false
termination_by l _ => l.length
decreasing_by
  simp only [afterLetterRun, List.length_cons]
  exact Nat.lt_succ_of_le (dropWhileLenLe _ _)

/-- Gibberish shape 1, `/^[a-z]{1,3}(\s[a-z]{1,3}){5,}$/`: a run of six or more
1–3-letter words separated by single whitespace characters. -/
def gibberishShortWords (l : List Char) : Bool :=
  if 1 ≤ letterRunLen l ∧ letterRunLen l ≤ 3 then shortWordLoop (afterLetterRun l) 0
  else false

/-- Gibberish shape 2, `/(.)\1{4,}/`: some non-line-terminator character
repeated five or more times consecutively. -/
def gibberishRepeat : List Char → Bool
  | a :: b :: c :: d :: e :: rest =>
    (decide (a = b) && decide (b = c) && decide (c = d) && decide (d = e)
      && !(decide (a = '\n') || decide (a = '\r')))
    || gibberishRepeat (b :: c :: d :: e :: rest)
  | _ => false

/-- Gibberish shape 3, `/^[^a-zA-Z]*$/`: no ASCII letters at all. -/
def gibberishNoLetters (l : List Char) : Bool := l.all fun c => !(isAsciiLetter c)

/-- The fixed non-answer word list of gibberish shape 4. -/
def nonAnswerWords : List (List Char) :=
  ["test".toList, "testing".toList, "hello".toList, "hi".toList, "ok".toList,
   "yes".toList, "no".toList, "idk".toList, "dunno".toList]

/-- Gibberish shape 4, `/^(test|testing|hello|hi|ok|yes|no|idk|dunno)\s*$/`. -/
def gibberishNonAnswer (l : List Char) : Bool :=
  nonAnswerWords.any fun w => startsWithTxt w l && (l.drop w.length).all isWsChar

/-- Any of the four gibberish patterns of `preValidateAnswer` matches. -/
def isGibberish (l : List Char) : Bool :=
  gibberishShortWords l || gibberishRepeat l || gibberishNoLetters l || gibberishNonAnswer l

/-- Result of a fired quality-gate check: the reason text and the score band. -/
structure GateResult where
  reason : String
  score : Nat
deriving DecidableEq

/-- The question words longer than three characters that share a substring
(either direction) with some answer word — `commonWords` in the source. -/
def wordOverlap (questionWords answerWords : List (List Char)) : List (List Char) :=
  questionWords.filter fun qw => answerWords.any fun aw => containsTxt qw aw || containsTxt aw qw

/-- `preValidateAnswer` from `src/config/gemini.js`: local heuristics that
reject degenerate answers before any external call. `none` means the answer is
valid and proceeds to the evaluator collaborator. -/
def preValidateAnswer (answerText questionText : List Char) : Option GateResult :=
  let answer := toLowerTxt (trimTxt answerText)
  let question := toLowerTxt questionText
  if answer.length < 10 then some ⟨"Answer too short", 5⟩
  else if isGibberish answer then
    some ⟨"Answer appears to be gibberish or non-meaningful", 8⟩
  else
    let questionWords := (splitOnSpace question).filter fun w => 3 < w.length
    let answerWords := splitOnSpace answer
    if (wordOverlap questionWords answerWords).length = 0 ∧ answer.length < 50 then
      some ⟨"Answer appears unrelated to the question", 12⟩
    else none

/-- The stored per-answer AI evaluation sub-record (`aiEvaluation`). -/
structure AiEvaluation where
  relevance : ℚ
  completeness : ℚ
  technicalAccuracy : ℚ
  communication : ℚ
  overallScore : ℚ
  feedback : String
  suggestions : List String
deriving DecidableEq

/-- The evaluation `evaluateAnswer` builds locally when a quality-gate check
fires (no collaborator call). -/
def gateEvaluation (g : GateResult) : AiEvaluation where
  relevance := g.score
  completeness := max 0 ((g.score : ℚ) - 5)
  technicalAccuracy := max 0 ((g.score : ℚ) - 8)
  communication := max 0 ((g.score : ℚ) + 5)
  overallScore := g.score
  feedback := "Poor answer quality: " ++ g.reason
    ++ ". Please provide a meaningful, relevant response that demonstrates your understanding of the topic."
  suggestions :=
    ["Provide a more detailed and relevant answer",
     "Ensure your response directly addresses the question",
     "Include specific technical details and examples"]

/-- `getFallbackEvaluation` from `src/config/gemini.js`: the fixed conservative
evaluation returned when the evaluator collaborator fails. -/
def getFallbackEvaluation : AiEvaluation where
  relevance := 30
  completeness := 25
  technicalAccuracy := 20
  communication := 35
  overallScore := 28
  feedback := "Unable to properly evaluate this answer due to technical issues. The answer appears to lack sufficient technical depth and clarity. Please provide a more comprehensive and relevant response."
  suggestions :=
    ["Provide more specific and relevant technical details",
     "Ensure your answer directly addresses the question asked",
     "Structure your response more clearly with concrete examples"]

/-- A JS number as it arrives from parsed collaborator JSON: either a rational
value or NaN (the code tests `isNaN(score)`). -/
inductive JsNumber where
  | num (value : ℚ)
  | nan
deriving DecidableEq

/-- The range check `score < 0 || score > 100 || isNaN(score)` negated:
`true` iff the sub-score is a number in `[0, 100]`. -/
def JsNumber.inRange : JsNumber → Bool
  | .num v => decide (0 ≤ v ∧ v ≤ 100)
  | .nan => false

/-- Numeric value of a validated sub-score. Only reached after `inRange`
holds, so the NaN branch is never exercised. -/
def JsNumber.toRat : JsNumber → ℚ
  | .num v => v
  | .nan => 0

/-- A structurally complete response of the text-evaluation collaborator
(all seven required fields present and parsed). -/
structure EvaluatorResponse where
  relevance : JsNumber
  completeness : JsNumber
  technicalAccuracy : JsNumber
  communication : JsNumber
  overallScore : ℚ
  feedback : String
  suggestions : List String
deriving DecidableEq

/-- Outcome of the call to the text-evaluation collaborator. `failure` covers
timeout, unreachable service, text without a JSON object, and JSON missing a
required field — every path that throws before the range checks. -/
inductive EvaluatorOutcome where
  | failure
  | response (r : EvaluatorResponse)
deriving DecidableEq

/-- All four sub-scores are numeric and within `[0, 100]`. -/
def responseScoresValid (r : EvaluatorResponse) : Bool :=
  r.relevance.inRange && r.completeness.inRange
    && r.technicalAccuracy.inRange && r.communication.inRange

/-- Whether the collaborator outcome takes the catch path in the code:
a hard failure, or some sub-score out of range or non-numeric. -/
def evaluatorOutcomeBad : EvaluatorOutcome → Bool
  | .failure => true
  | .response r => !(responseScoresValid r)

/-- The post-processing `evaluateAnswer` applies to a validated collaborator
response: overwrite the self-reported overall with the rounded mean of the
four sub-scores, then, for answers under 20 characters, cap the sub-scores
and recompute the overall from the capped values. -/
def enforceEvaluation (answerText : List Char) (r : EvaluatorResponse) : AiEvaluation :=
  let rel := r.relevance.toRat
  let comp := r.completeness.toRat
  let tech := r.technicalAccuracy.toRat
  let comm := r.communication.toRat
  if (trimTxt answerText).length < 20 then
    let rel2 := min rel 40
    let comp2 := min comp 30
    let tech2 := min tech 25
    let comm2 := min comm 35
    { relevance := rel2, completeness := comp2, technicalAccuracy := tech2,
      communication := comm2,
      overallScore := (jsRound ((rel2 + comp2 + tech2 + comm2) / 4) : ℚ),
      feedback := r.feedback, suggestions := r.suggestions }
  else
    { relevance := rel, completeness := comp, technicalAccuracy := tech,
      communication := comm,
      overallScore := (jsRound ((rel + comp + tech + comm) / 4) : ℚ),
      feedback := r.feedback, suggestions := r.suggestions }

/-- What `evaluateAnswer` hands back: the evaluation to store, together with
whether the evaluator collaborator was consulted at all. -/
structure EvaluateOutput where
  evaluation : AiEvaluation
  evaluatorCalled : Bool
deriving DecidableEq

/-- `evaluateAnswer` from `src/config/gemini.js`. The function is total: every
collaborator failure is caught and resolved to the fallback evaluation, so no
error ever reaches the caller. -/
def evaluateAnswer (outcome : EvaluatorOutcome) (questionText answerText : List Char) :
    EvaluateOutput :=
  match preValidateAnswer answerText questionText with
  | some g => ⟨gateEvaluation g, false⟩
  | none =>
    match outcome with
    | .failure => ⟨getFallbackEvaluation, true⟩
    | .response r =>
      if responseScoresValid r then ⟨enforceEvaluation answerText r, true⟩
      else ⟨getFallbackEvaluation, true⟩

/-- The five category scores of a final result (`categoryScores` in
`FinalResult.js`; the spec calls the last one `behavioralSignal`). -/
structure CategoryScores where
  technicalKnowledge : ℚ
  communication : ℚ
  problemSolving : ℚ
  confidence : ℚ
  facialAnalysis : ℚ
deriving DecidableEq

/-- A stored `FinalResult` document (claim-relevant fields). -/
structure FinalResultDoc where
  overallScore : ℚ
  categoryScores : CategoryScores
  grade : String
  passed : Bool
  completionTime : ℤ
  questionsAnswered : ℕ
  totalQuestions : ℕ
  completionPercentage : ℤ
deriving DecidableEq

/-- The grade ladder of `finalResultSchema.pre("save")`. -/
def gradeFor (s : ℚ) : String :=
  if 95 ≤ s then "A+"
  else if 90 ≤ s then "A"
  else if 85 ≤ s then "B+"
  else if 80 ≤ s then "B"
  else if 75 ≤ s then "C+"
  else if 70 ≤ s then "C"
  else if 60 ≤ s then "D"
  else "F"

/-- `finalResultSchema.pre("save")` from `FinalResult.js`: on every save,
recompute grade, passed and completion percentage from the document itself. -/
def finalResultPreSave (r : FinalResultDoc) : FinalResultDoc :=
  { r with
    grade := gradeFor r.overallScore
    passed := decide (70 ≤ r.overallScore)
    completionPercentage :=
      jsRound ((r.questionsAnswered : ℚ) / (r.totalQuestions : ℚ) * 100) }

/-- The parsed response of the narrative final-result collaborator
(`generateFinalResult`'s validated JSON). -/
structure AiFinalResult where
  overallScore : ℚ
  categoryScores : CategoryScores
  strengths : List String
  weaknesses : List String
  recommendations : List String
  detailedFeedback : String
deriving DecidableEq

/-- Outcome of the narrative final-result collaborator call: `failure` covers
timeout, missing JSON and missing required fields. -/
inductive NarrativeOutcome where
  | failure
  | response (r : AiFinalResult)
deriving DecidableEq

/-- `getFallbackFinalResult` from `src/config/gemini.js`: conservative scores
derived from the completion rate when the collaborator fails. -/
def getFallbackFinalResult (answeredQuestions totalQuestions : ℕ) : AiFinalResult :=
  let completionRate : ℚ := (answeredQuestions : ℚ) / (totalQuestions : ℚ) * 100
  let baseScore : ℚ := max 20 (min 45 (completionRate * (4/10)))
  { overallScore := (jsRound baseScore : ℚ)
    categoryScores :=
      { technicalKnowledge := (jsRound (baseScore * (8/10)) : ℚ)
        communication := (jsRound (baseScore * (9/10)) : ℚ)
        problemSolving := (jsRound (baseScore * (7/10)) : ℚ)
        confidence := (jsRound (baseScore * (6/10)) : ℚ)
        facialAnalysis := (jsRound (baseScore * (5/10)) : ℚ) }
    strengths := ["Completed the interview process"]
    weaknesses :=
      ["Unable to properly evaluate answer quality due to technical issues",
       "Answers may lack sufficient technical depth and clarity",
       "Response quality could not be verified"]
    recommendations :=
      ["Retake the interview when technical issues are resolved",
       "Ensure answers are comprehensive and technically accurate",
       "Provide more detailed explanations with specific examples"]
    detailedFeedback := "Technical evaluation failed for this interview. You completed "
      ++ toString answeredQuestions ++ " out of " ++ toString totalQuestions
      ++ " questions, but we could not properly assess the quality of your responses. Please retake the interview to get an accurate evaluation of your skills." }

/-- `generateFinalResult` from `src/config/gemini.js`: pass the collaborator's
validated response through unchanged, or fall back on failure. -/
def generateFinalResult (outcome : NarrativeOutcome) (answeredQuestions totalQuestions : ℕ) :
    AiFinalResult :=
  match outcome with
  | .response r => r
  | .failure => getFallbackFinalResult answeredQuestions totalQuestions

/-- The `FinalResult.create` call of `POST /api/results/generate/:interviewId`:
the stored overall score and category scores are copied verbatim from the
narrative collaborator result, and the pre-save hook then derives grade,
passed and completion percentage. -/
def createFinalResult (aiResult : AiFinalResult) (completionTime : ℤ)
    (questionsAnswered totalQuestions : ℕ) : FinalResultDoc :=
  finalResultPreSave
    { overallScore := aiResult.overallScore
      categoryScores := aiResult.categoryScores
      grade := ""
      passed := false
      completionTime := completionTime
      questionsAnswered := questionsAnswered
      totalQuestions := totalQuestions
      completionPercentage := 0 }

/-- The overall-score formula prescribed by the spec (§4.6) and by the
repository's own design document `dfd.md` (process 5.6): the fixed weighted
sum 25/20/25/15/15 over the five category scores. Stated here, from the
spec's words, for comparison with the implementation. -/
def specWeightedOverall (c : CategoryScores) : ℚ :=
  (25/100) * c.technicalKnowledge + (20/100) * c.communication
    + (25/100) * c.problemSolving + (15/100) * c.confidence
    + (15/100) * c.facialAnalysis

/-- The fixed 7-channel emotion distribution of a behavioral record. -/
structure EmotionVec where
  happy : ℚ
  sad : ℚ
  angry : ℚ
  fear : ℚ
  surprise : ℚ
  disgust : ℚ
  neutral : ℚ
deriving DecidableEq

/-- A per-answer behavioral (facial-analysis) record. -/
structure FacialRecord where
  confidence : ℚ
  emotions : EmotionVec
  eyeContact : ℚ
  speechClarity : ℚ
  overallScore : ℚ
  feedback : String
deriving DecidableEq

/-- `getFallbackFacialAnalysis` from `src/services/facialAnalysis.js`. -/
def getFallbackFacialAnalysis : FacialRecord where
  confidence := 70
  emotions := { happy := 30, sad := 10, angry := 5, fear := 15, surprise := 10,
                disgust := 5, neutral := 25 }
  eyeContact := 65
  speechClarity := 70
  overallScore := 68
  feedback := "Facial analysis service was unavailable. Manual review recommended."

/-- The rounded per-channel emotion means of an aggregated summary. -/
structure EmotionSummary where
  happy : ℤ
  sad : ℤ
  angry : ℤ
  fear : ℤ
  surprise : ℤ
  disgust : ℤ
  neutral : ℤ
deriving DecidableEq

/-- The session-level summary built from the valid behavioral records. -/
structure FacialSummary where
  averageConfidence : ℤ
  averageEyeContact : ℤ
  averageSpeechClarity : ℤ
  averageOverallScore : ℤ
  averageEmotions : EmotionSummary
  dominantEmotion : String
  feedback : String
  analysisCount : ℕ
deriving DecidableEq

/-- `aggregateFacialAnalysis` returns either the per-answer-shaped fallback
record or a computed summary (the source returns differently shaped objects). -/
inductive FacialAggregate where
  | fallback (r : FacialRecord)
  | summary (s : FacialSummary)
deriving DecidableEq

/-- The filter `result && result.overallScore > 0` marking a record valid. -/
def facialValid (r : FacialRecord) : Bool := decide (0 < r.overallScore)

/-- The emotion channels in the source's fixed key order, paired with their
averaged values. -/
def emotionPairs (e : EmotionSummary) : List (String × ℤ) :=
  [("happy", e.happy), ("sad", e.sad), ("angry", e.angry), ("fear", e.fear),
   ("surprise", e.surprise), ("disgust", e.disgust), ("neutral", e.neutral)]

/-- JS `keys.reduce((a, b) => avg[a] > avg[b] ? a : b)`: on ties the later
key wins. -/
def reduceDominant : String × ℤ → List (String × ℤ) → String
  | (a, _), [] => a
  | (a, va), (b, vb) :: rest =>
    if va > vb then reduceDominant (a, va) rest else reduceDominant (b, vb) rest

/-- The dominant emotion: the channel with the highest averaged value. -/
def dominantEmotionOf (e : EmotionSummary) : String :=
  reduceDominant ("happy", e.happy) (emotionPairs e).tail

/-- `generateFacialAnalysisFeedback` from `src/services/facialAnalysis.js`. -/
def generateFacialAnalysisFeedback (confidence eyeContact speechClarity : ℤ)
    (dominantEmotion : String) : String :=
  let confPart :=
    if 80 ≤ confidence then
      ["Excellent confidence levels throughout the interview."]
    else if 60 ≤ confidence then
      ["Good confidence, with room for slight improvement."]
    else
      ["Consider working on building confidence for future interviews."]
  let eyePart :=
    if 80 ≤ eyeContact then ["Maintained excellent eye contact."]
    else if 60 ≤ eyeContact then
      ["Good eye contact, try to maintain it more consistently."]
    else ["Focus on maintaining better eye contact with the interviewer."]
  let speechPart :=
    if 80 ≤ speechClarity then ["Speech was clear and well-articulated."]
    else if 60 ≤ speechClarity then
      ["Generally clear speech with minor areas for improvement."]
    else ["Work on speaking more clearly and at an appropriate pace."]
  let emotionPart :=
    if dominantEmotion = "happy" ∨ dominantEmotion = "neutral" then
      ["Maintained a positive and professional demeanor."]
    else if dominantEmotion = "fear" ∨ dominantEmotion = "sad" then
      ["Try to project more confidence and positivity during interviews."]
    else []
  String.intercalate " " (confPart ++ eyePart ++ speechPart ++ emotionPart)

/-- `aggregateFacialAnalysis` from `src/services/facialAnalysis.js`: filter to
records with a positive overall score; with none, return the fixed fallback;
otherwise average every metric and every emotion channel over the valid
records. The function is total — no input raises. -/
def aggregateFacialAnalysis (analysisResults : List FacialRecord) : FacialAggregate :=
  if analysisResults.isEmpty then .fallback getFallbackFacialAnalysis
  else
    let validResults := analysisResults.filter facialValid
    if validResults.isEmpty then .fallback getFallbackFacialAnalysis
    else
      let n : ℚ := (validResults.length : ℚ)
      let avgConfidence := jsRound ((validResults.map fun r => r.confidence).sum / n)
      let avgEyeContact := jsRound ((validResults.map fun r => r.eyeContact).sum / n)
      let avgSpeechClarity := jsRound ((validResults.map fun r => r.speechClarity).sum / n)
      let avgOverallScore := jsRound ((validResults.map fun r => r.overallScore).sum / n)
      let avgEmotions : EmotionSummary :=
        { happy := jsRound ((validResults.map fun r => r.emotions.happy).sum / n)
          sad := jsRound ((validResults.map fun r => r.emotions.sad).sum / n)
          angry := jsRound ((validResults.map fun r => r.emotions.angry).sum / n)
          fear := jsRound ((validResults.map fun r => r.emotions.fear).sum / n)
          surprise := jsRound ((validResults.map fun r => r.emotions.surprise).sum / n)
          disgust := jsRound ((validResults.map fun r => r.emotions.disgust).sum / n)
          neutral := jsRound ((validResults.map fun r => r.emotions.neutral).sum / n) }
      let dom := dominantEmotionOf avgEmotions
      .summary
        { averageConfidence := avgConfidence
          averageEyeContact := avgEyeContact
          averageSpeechClarity := avgSpeechClarity
          averageOverallScore := avgOverallScore
          averageEmotions := avgEmotions
          dominantEmotion := dom
          feedback := generateFacialAnalysisFeedback avgConfidence avgEyeContact
            avgSpeechClarity dom
          analysisCount := validResults.length }

/-- The interview status enumeration from `Interview.js`. -/
inductive InterviewStatus where
  | generated
  | inProgress
  | completed
  | abandoned
deriving DecidableEq

/-- An interview session (lifecycle-relevant fields). Timestamps are integer
milliseconds, `duration` whole seconds. -/
structure InterviewSession where
  status : InterviewStatus
  startedAt : Option ℤ
  completedAt : Option ℤ
  duration : ℤ
deriving DecidableEq

/-- `startInterview` from `Interview.js`: set status and record start time. -/
def startInterview (s : InterviewSession) (now : ℤ) : InterviewSession :=
  { s with status := .inProgress, startedAt := some now }

/-- `completeInterview` from `Interview.js`: set status, record completion
time, and — when a start time exists — compute the duration in whole seconds
(`Math.floor((completedAt - startedAt) / 1000)`). -/
def completeInterview (s : InterviewSession) (now : ℤ) : InterviewSession :=
  { s with
    status := .completed
    completedAt := some now
    duration :=
      match s.startedAt with
      | some t => Int.fdiv (now - t) 1000
      | none => s.duration }

/-- The guard failure of the lifecycle routes (HTTP 400). -/
inductive StateError where
  | stateError
deriving DecidableEq

/-- `POST /api/interviews/:id/start`: reject unless the session is still
`generated`; an error leaves the session unwritten. -/
def startRoute (s : InterviewSession) (now : ℤ) : Except StateError InterviewSession :=
  if s.status = .generated then .ok (startInterview s now)
  else .error .stateError

/-- `POST /api/interviews/:id/complete`: reject unless the session is
`in_progress`; an error leaves the session unwritten. -/
def completeRoute (s : InterviewSession) (now : ℤ) : Except StateError InterviewSession :=
  if s.status = .inProgress then .ok (completeInterview s now)
  else .error .stateError

/-- The guard failures of `POST /api/results/generate/:interviewId`. -/
inductive GenerateResultError where
  | notCompleted
  | duplicateResult
  | noAnswers
deriving DecidableEq

/-- The precondition guards and the single `FinalResult.create` of
`POST /api/results/generate/:interviewId`, acting on the unique
`(interviewId, userId)` store cell: `existing` is the cell before the call and
the returned cell is its state after. Guards run in source order: status,
existing result, empty answer list. -/
def generateResultOp (status : InterviewStatus) (existing : Option FinalResultDoc)
    (answersCount : ℕ) (freshResult : FinalResultDoc) :
    Except GenerateResultError (Option FinalResultDoc) :=
  if status ≠ .completed then .error .notCompleted
  else
    match existing with
    | some _ => .error .duplicateResult
    | none =>
      if answersCount = 0 then .error .noAnswers
      else .ok (some freshResult)

/-- One interview question as stored on the session. -/
structure Question where
  questionNumber : ℕ
  questionText : List Char
  expectedAnswer : Option (List Char)
deriving DecidableEq

/-- The interview fields the answer-submission route consults. -/
structure InterviewDoc where
  status : InterviewStatus
  numberOfQuestions : ℕ
  questions : List Question
deriving DecidableEq

/-- A stored Answer document (claim-relevant fields). -/
structure AnswerDoc where
  questionNumber : ℕ
  answerText : List Char
  aiEvaluation : AiEvaluation
deriving DecidableEq

/-- The per-question answer store for one fixed (session, owner): the unique
compound index of `Answer.js` allows at most one document per question
number, modelled as one optional cell per key. -/
def AnswerStore := ℕ → Option AnswerDoc

/-- The guard failures of `POST /api/answers`. -/
inductive SubmitError where
  | validationError
  | notInProgress
  | invalidQuestionNumber
  | questionMissing
  | duplicateAnswer
deriving DecidableEq

/-- `POST /api/answers` for one fixed (session, owner): the express-validator
length check, the lifecycle guard, the question checks, the existing-answer
check, then evaluation and creation. An error writes nothing. -/
def submitAnswer (itv : InterviewDoc) (store : AnswerStore) (questionNumber : ℕ)
    (answerText : List Char) (outcome : EvaluatorOutcome) :
    Except SubmitError AnswerStore :=
  if (trimTxt answerText).length < 10 ∨ 5000 < (trimTxt answerText).length then
    .error .validationError
  else if itv.status ≠ .inProgress then .error .notInProgress
  else if itv.numberOfQuestions < questionNumber then .error .invalidQuestionNumber
  else
    match itv.questions.find? fun q => q.questionNumber == questionNumber with
    | none => .error .questionMissing
    | some q =>
      match store questionNumber with
      | some _ => .error .duplicateAnswer
      | none =>
        let result := evaluateAnswer outcome q.questionText (trimTxt answerText)
        .ok fun m =>
          if m = questionNumber then
            some ⟨questionNumber, trimTxt answerText, result.evaluation⟩
          else store m

/-! ## Claim theorems -/

/-- C2: for every stored FinalResult — i.e. after the pre-save hook, however
the overall score was obtained — `passed` holds iff the overall score is at
least 70, the hook leaves the overall score unchanged, and the grade is
determined by the fixed ladder ≥95 A+, ≥90 A, ≥85 B+, ≥80 B, ≥75 C+, ≥70 C,
≥60 D, else F. -/
theorem finalResult_grade_passed_consistent (r : FinalResultDoc) :
    ((finalResultPreSave r).passed = true ↔ 70 ≤ r.overallScore) ∧
    (finalResultPreSave r).overallScore = r.overallScore ∧
    (95 ≤ r.overallScore → (finalResultPreSave r).grade = "A+") ∧
    (90 ≤ r.overallScore → r.overallScore < 95 → (finalResultPreSave r).grade = "A") ∧
    (85 ≤ r.overallScore → r.overallScore < 90 → (finalResultPreSave r).grade = "B+") ∧
    (80 ≤ r.overallScore → r.overallScore < 85 → (finalResultPreSave r).grade = "B") ∧
    (75 ≤ r.overallScore → r.overallScore < 80 → (finalResultPreSave r).grade = "C+") ∧
    (70 ≤ r.overallScore → r.overallScore < 75 → (finalResultPreSave r).grade = "C") ∧
    (60 ≤ r.overallScore → r.overallScore < 70 → (finalResultPreSave r).grade = "D") ∧
    (r.overallScore < 60 → (finalResultPreSave r).grade = "F") := by
  refine ⟨by simp [finalResultPreSave], rfl, ?_, ?_, ?_, ?_, ?_, ?_, ?_, ?_⟩ <;>
    · intros
      simp only [finalResultPreSave, gradeFor]
      split_ifs <;> first | rfl | linarith

/-- C8: `start` succeeds exactly from status `generated`, setting the status
to `in_progress` and recording the start time; `complete` succeeds exactly
from `in_progress`, setting the status to `completed`, recording the
completion time and deriving the duration from completion time minus start
time (whole seconds); every other attempt is rejected with a state error and,
the route returning before any save, leaves the session unchanged. -/
theorem lifecycle_transitions (s : InterviewSession) (now : ℤ) :
    (s.status = .generated →
      startRoute s now = .ok { s with status := .inProgress, startedAt := some now }) ∧
    (s.status ≠ .generated → startRoute s now = .error .stateError) ∧
    (∀ t, s.status = .inProgress → s.startedAt = some t →
      completeRoute s now =
        .ok { s with status := .completed, completedAt := some now, duration := Int.fdiv (now - t) 1000 }) ∧
    (s.status ≠ .inProgress → completeRoute s now = .error .stateError) := by
  refine ⟨fun h => ?_, fun h => ?_, fun t h ht => ?_, fun h => ?_⟩
  · simp [startRoute, startInterview, h]
  · simp [startRoute, h]
  · simp [completeRoute, completeInterview, h, ht]
  · simp [completeRoute, h]

/-- C8 witness: a concrete generated session starts, a concrete in-progress
session completes with duration (12000 − 5000) ms = 7 s, and completing a
still-generated session is rejected. -/
theorem lifecycle_transitions_witness :
    startRoute ⟨.generated, none, none, 0⟩ 5000
      = .ok ⟨.inProgress, some 5000, none, 0⟩ ∧
    completeRoute ⟨.inProgress, some 5000, none, 0⟩ 12000
      = .ok ⟨.completed, some 5000, some 12000, 7⟩ ∧
    completeRoute ⟨.generated, none, none, 0⟩ 99 = .error .stateError :=
  ⟨(lifecycle_transitions ⟨.generated, none, none, 0⟩ 5000).1 rfl,
   (lifecycle_transitions ⟨.inProgress, some 5000, none, 0⟩ 12000).2.2.1 5000 rfl rfl,
   (lifecycle_transitions ⟨.generated, none, none, 0⟩ 99).2.2.2 (by decide)⟩

/-- C9: result generation succeeds exactly when the session is completed, an
answer exists and no FinalResult occupies the unique (session, owner) cell;
an occupied cell under a completed session yields the duplicate error; and a
success writes exactly the one fresh result into the cell. -/
theorem generateResult_guards (status : InterviewStatus) (existing : Option FinalResultDoc)
    (n : ℕ) (fr : FinalResultDoc) :
    ((∃ cell, generateResultOp status existing n fr = .ok cell) ↔
      status = .completed ∧ existing = none ∧ n ≠ 0) ∧
    (∀ r, status = .completed → existing = some r →
      generateResultOp status existing n fr = .error .duplicateResult) ∧
    (∀ cell, generateResultOp status existing n fr = .ok cell → cell = some fr) := by
  unfold generateResultOp
  by_cases hs : status = .completed
  · cases existing with
    | some r => simp [hs]
    | none =>
      by_cases hn : n = 0
      · simp [hs, hn]
      · simp [hs, hn]
  · cases existing <;> simp [hs]

/-- A concrete final-result document for witnesses. -/
def demoFinalResult : FinalResultDoc :=
  { overallScore := 75
    categoryScores :=
      { technicalKnowledge := 80
        communication := 70
        problemSolving := 75
        confidence := 70
        facialAnalysis := 72 }
    grade := "C+"
    passed := true
    completionTime := 600
    questionsAnswered := 3
    totalQuestions := 5
    completionPercentage := 60 }

/-- C9 witness: with a completed session, three answers and an empty cell the
operation succeeds, and with the cell occupied it fails with the duplicate
error. -/
theorem generateResult_guards_witness :
    (∃ cell, generateResultOp .completed none 3 demoFinalResult = .ok cell) ∧
    generateResultOp .completed (some demoFinalResult) 3 demoFinalResult
      = .error .duplicateResult :=
  ⟨((generateResult_guards .completed none 3 demoFinalResult).1).mpr
      ⟨rfl, rfl, by decide⟩,
   (generateResult_guards .completed (some demoFinalResult) 3 demoFinalResult).2.1
      demoFinalResult rfl rfl⟩

/-- C10: with the session in progress and a valid question, a first
submission for a fresh question number succeeds and stores the evaluation,
and a second submission for the same key is rejected with the duplicate
error, leaving the first stored evaluation in place. -/
theorem submitAnswer_duplicate_rejected (itv : InterviewDoc) (store : AnswerStore)
    (n : ℕ) (a1 a2 : List Char) (o1 o2 : EvaluatorOutcome) (q : Question)
    (hlen1 : 10 ≤ (trimTxt a1).length) (hlen1b : (trimTxt a1).length ≤ 5000)
    (hlen2 : 10 ≤ (trimTxt a2).length) (hlen2b : (trimTxt a2).length ≤ 5000)
    (hst : itv.status = .inProgress)
    (hn : n ≤ itv.numberOfQuestions)
    (hq : (itv.questions.find? fun qq => qq.questionNumber == n) = some q)
    (hnew : store n = none) :
    ∃ store1, submitAnswer itv store n a1 o1 = .ok store1 ∧
      store1 n = some ⟨n, trimTxt a1,
        (evaluateAnswer o1 q.questionText (trimTxt a1)).evaluation⟩ ∧
      submitAnswer itv store1 n a2 o2 = .error .duplicateAnswer := by
  have h1 : submitAnswer itv store n a1 o1 = .ok fun m =>
      if m = n then some ⟨n, trimTxt a1,
        (evaluateAnswer o1 q.questionText (trimTxt a1)).evaluation⟩
      else store m := by
    unfold submitAnswer
    rw [if_neg (by omega), if_neg (by simp [hst]), if_neg (by omega), hq, hnew]
  refine ⟨_, h1, by simp, ?_⟩
  unfold submitAnswer
  rw [if_neg (by omega), if_neg (by simp [hst]), if_neg (by omega), hq]
  simp

/-- A concrete question for witnesses. -/
def demoQuestion : Question := ⟨1, "explain polymorphism in java".toList, none⟩

/-- A concrete in-progress interview for witnesses. -/
def demoInterview : InterviewDoc :=
  { status := .inProgress, numberOfQuestions := 5, questions := [demoQuestion] }

/-- A concrete answer text that passes the quality gate. -/
def demoAnswerText : List Char := "java polymorphism is great".toList

/-- C10 witness: submitting question 1 of the demo interview twice succeeds
once and is rejected as a duplicate the second time. -/
theorem submitAnswer_duplicate_rejected_witness :
    ∃ store1, submitAnswer demoInterview (fun _ => none) 1 demoAnswerText .failure
        = .ok store1 ∧
      store1 1 = some ⟨1, trimTxt demoAnswerText,
        (evaluateAnswer .failure demoQuestion.questionText (trimTxt demoAnswerText)).evaluation⟩ ∧
      submitAnswer demoInterview store1 1 demoAnswerText .failure
        = .error .duplicateAnswer :=
  submitAnswer_duplicate_rejected demoInterview (fun _ => none) 1 demoAnswerText
    demoAnswerText .failure .failure demoQuestion (by decide) (by decide) (by decide)
    (by decide) rfl (by decide) rfl rfl

/-- C3: whenever an evaluation is actually obtained from the evaluator
collaborator (gate passed, response range-valid), the stored overall score is
the rounded arithmetic mean of the four stored sub-scores, and the
collaborator's self-reported overall field has no influence on the result. -/
theorem evaluator_overall_recomputed (r : EvaluatorResponse) (q a : List Char)
    (hGate : preValidateAnswer a q = none)
    (hValid : responseScoresValid r = true) :
    ((evaluateAnswer (.response r) q a).evaluation.overallScore =
      (jsRound (((evaluateAnswer (.response r) q a).evaluation.relevance
        + (evaluateAnswer (.response r) q a).evaluation.completeness
        + (evaluateAnswer (.response r) q a).evaluation.technicalAccuracy
        + (evaluateAnswer (.response r) q a).evaluation.communication) / 4) : ℚ)) ∧
    ∀ o : ℚ, evaluateAnswer (.response { r with overallScore := o }) q a
      = evaluateAnswer (.response r) q a := by
  constructor
  · simp only [evaluateAnswer, hGate]
    rw [if_pos hValid]
    simp only [enforceEvaluation]
    split <;> rfl
  · intro o
    have hsv : responseScoresValid { r with overallScore := o }
        = responseScoresValid r := rfl
    have hen : enforceEvaluation a { r with overallScore := o }
        = enforceEvaluation a r := rfl
    simp only [evaluateAnswer, hGate, hsv, hen]

/-- A concrete range-valid collaborator response whose self-reported overall
(55) disagrees with the mean of its sub-scores. -/
def demoEvalResponse : EvaluatorResponse :=
  { relevance := .num 90
    completeness := .num 85
    technicalAccuracy := .num 88
    communication := .num 82
    overallScore := 55
    feedback := "solid answer"
    suggestions := [] }

/-- C3 witness: on the demo gate-passing answer the stored overall is the
rounded mean of the stored sub-scores, regardless of the self-reported 55. -/
theorem evaluator_overall_recomputed_witness :
    ((evaluateAnswer (.response demoEvalResponse) demoQuestion.questionText
        demoAnswerText).evaluation.overallScore =
      (jsRound (((evaluateAnswer (.response demoEvalResponse) demoQuestion.questionText
          demoAnswerText).evaluation.relevance
        + (evaluateAnswer (.response demoEvalResponse) demoQuestion.questionText
            demoAnswerText).evaluation.completeness
        + (evaluateAnswer (.response demoEvalResponse) demoQuestion.questionText
            demoAnswerText).evaluation.technicalAccuracy
        + (evaluateAnswer (.response demoEvalResponse) demoQuestion.questionText
            demoAnswerText).evaluation.communication) / 4) : ℚ)) ∧
    ∀ o : ℚ, evaluateAnswer (.response { demoEvalResponse with overallScore := o })
        demoQuestion.questionText demoAnswerText
      = evaluateAnswer (.response demoEvalResponse) demoQuestion.questionText
          demoAnswerText :=
  evaluator_overall_recomputed demoEvalResponse demoQuestion.questionText
    demoAnswerText (by decide) (by decide)

/-- C6: when the gate passes but the collaborator call fails — timeout,
malformed or incomplete response, or any sub-score non-numeric or outside
[0, 100] — `evaluateAnswer` resolves to the fixed conservative fallback
evaluation (30/25/20/35, overall 28) instead of surfacing the failure, the
function being total. -/
theorem evaluator_failure_fallback (outcome : EvaluatorOutcome) (q a : List Char)
    (hGate : preValidateAnswer a q = none)
    (hBad : evaluatorOutcomeBad outcome = true) :
    evaluateAnswer outcome q a = ⟨getFallbackEvaluation, true⟩ ∧
    getFallbackEvaluation.relevance = 30 ∧
    getFallbackEvaluation.completeness = 25 ∧
    getFallbackEvaluation.technicalAccuracy = 20 ∧
    getFallbackEvaluation.communication = 35 ∧
    getFallbackEvaluation.overallScore = 28 := by
  refine ⟨?_, rfl, rfl, rfl, rfl, rfl⟩
  cases outcome with
  | failure => simp only [evaluateAnswer, hGate]
  | response r =>
    simp only [evaluatorOutcomeBad, Bool.not_eq_true'] at hBad
    simp only [evaluateAnswer, hGate, hBad]
    rw [if_neg (by simp [hBad])]

/-- C6 witness: a timeout on the demo gate-passing answer yields exactly the
fallback evaluation. -/
theorem evaluator_failure_fallback_witness :
    evaluateAnswer .failure demoQuestion.questionText demoAnswerText
        = ⟨getFallbackEvaluation, true⟩ ∧
    getFallbackEvaluation.relevance = 30 ∧
    getFallbackEvaluation.completeness = 25 ∧
    getFallbackEvaluation.technicalAccuracy = 20 ∧
    getFallbackEvaluation.communication = 35 ∧
    getFallbackEvaluation.overallScore = 28 :=
  evaluator_failure_fallback .failure demoQuestion.questionText demoAnswerText
    (by decide) rfl

/-- Helper: a fired gate carries exactly one of the three bands 5, 8, 12. -/
theorem preValidate_score_cases (a q : List Char) (g : GateResult)
    (h : preValidateAnswer a q = some g) :
    g.score = 5 ∨ g.score = 8 ∨ g.score = 12 := by
  simp only [preValidateAnswer] at h
  split_ifs at h <;> cases h <;> simp

/-- C5: whenever a quality-gate check fires, the evaluation is built locally
from the band (relevance = band, completeness = max(0, band−5),
technicalAccuracy = max(0, band−8), communication = band+5, overall = band)
and the evaluator collaborator is not consulted; and the band is 5 exactly
for a trimmed length under 10, 8 exactly for a gibberish shape, and 12
exactly for no lexical overlap on an answer under 50 characters. -/
theorem quality_gate_short_circuit (outcome : EvaluatorOutcome) (q a : List Char)
    (g : GateResult) (h : preValidateAnswer a q = some g) :
    (evaluateAnswer outcome q a).evaluatorCalled = false ∧
    (evaluateAnswer outcome q a).evaluation.relevance = g.score ∧
    (evaluateAnswer outcome q a).evaluation.completeness = max 0 ((g.score : ℚ) - 5) ∧
    (evaluateAnswer outcome q a).evaluation.technicalAccuracy = max 0 ((g.score : ℚ) - 8) ∧
    (evaluateAnswer outcome q a).evaluation.communication = (g.score : ℚ) + 5 ∧
    (evaluateAnswer outcome q a).evaluation.overallScore = g.score ∧
    (g.score = 5 ∨ g.score = 8 ∨ g.score = 12) ∧
    (g.score = 5 ↔ (toLowerTxt (trimTxt a)).length < 10) ∧
    (g.score = 8 ↔ ¬ (toLowerTxt (trimTxt a)).length < 10 ∧
      isGibberish (toLowerTxt (trimTxt a)) = true) ∧
    (g.score = 12 ↔ ¬ (toLowerTxt (trimTxt a)).length < 10 ∧
      isGibberish (toLowerTxt (trimTxt a)) = false ∧
      (wordOverlap ((splitOnSpace (toLowerTxt q)).filter fun w => 3 < w.length)
        (splitOnSpace (toLowerTxt (trimTxt a)))).length = 0 ∧
      (toLowerTxt (trimTxt a)).length < 50) := by
  have hmain : evaluateAnswer outcome q a = ⟨gateEvaluation g, false⟩ := by
    simp only [evaluateAnswer, h]
  refine ⟨by rw [hmain], by rw [hmain]; rfl, by rw [hmain]; rfl, by rw [hmain]; rfl,
    ?_, by rw [hmain]; rfl, ?_⟩
  · rw [hmain]
    show max 0 ((g.score : ℚ) + 5) = (g.score : ℚ) + 5
    exact max_eq_right (by positivity)
  · simp only [preValidateAnswer] at h
    split_ifs at h with h1 h2 h3
    · cases h
      refine ⟨Or.inl rfl, by simp [h1], ?_, ?_⟩ <;> constructor <;> simp [h1]
    · cases h
      refine ⟨Or.inr (Or.inl rfl), by simp [h1], ?_, ?_⟩
      · simp [h1, h2]
      · constructor <;> simp [h2]
    · cases h
      have h2f : isGibberish (toLowerTxt (trimTxt a)) = false := by
        simpa using h2
      refine ⟨Or.inr (Or.inr rfl), by simp [h1], by simp [h2f], ?_⟩
      simp [h1, h2f, h3.1, h3.2]

/-- The two-character non-answer of the spec's first concrete scenario. -/
def demoShortAnswer : List Char := "ok".toList

/-- C5 witness: submitting "ok" fires the too-short check; the stored overall
is the band 5 and the collaborator is not called. -/
theorem quality_gate_short_circuit_witness :
    (evaluateAnswer .failure demoQuestion.questionText demoShortAnswer).evaluatorCalled
        = false ∧
    (evaluateAnswer .failure demoQuestion.questionText demoShortAnswer).evaluation.overallScore
        = 5 :=
  ⟨(quality_gate_short_circuit .failure demoQuestion.questionText demoShortAnswer
      ⟨"Answer too short", 5⟩ (by decide)).1,
   by
     have h := (quality_gate_short_circuit .failure demoQuestion.questionText
       demoShortAnswer ⟨"Answer too short", 5⟩ (by decide)).2.2.2.2.2.1
     simpa using h⟩

/-- C4 (amended): for every answer whose trimmed text is under 20 characters,
the stored evaluation satisfies the caps relevance ≤ 40, completeness ≤ 30,
technicalAccuracy ≤ 25, communication ≤ 35; when no quality-gate check fires
(collaborator consulted or fallback used) the overall equals the rounded mean
of the four stored sub-scores, while when a gate check fires the overall
equals the gate band instead. -/
theorem short_answer_evaluation_caps (outcome : EvaluatorOutcome) (q a : List Char)
    (h : (trimTxt a).length < 20) :
    (evaluateAnswer outcome q a).evaluation.relevance ≤ 40 ∧
    (evaluateAnswer outcome q a).evaluation.completeness ≤ 30 ∧
    (evaluateAnswer outcome q a).evaluation.technicalAccuracy ≤ 25 ∧
    (evaluateAnswer outcome q a).evaluation.communication ≤ 35 ∧
    (preValidateAnswer a q = none →
      (evaluateAnswer outcome q a).evaluation.overallScore =
        (jsRound (((evaluateAnswer outcome q a).evaluation.relevance
          + (evaluateAnswer outcome q a).evaluation.completeness
          + (evaluateAnswer outcome q a).evaluation.technicalAccuracy
          + (evaluateAnswer outcome q a).evaluation.communication) / 4) : ℚ)) ∧
    (∀ g, preValidateAnswer a q = some g →
      (evaluateAnswer outcome q a).evaluation.overallScore = g.score) := by
  rcases hpv : preValidateAnswer a q with _ | g
  · have hfb :
        (getFallbackEvaluation.relevance ≤ 40 ∧ getFallbackEvaluation.completeness ≤ 30 ∧
          getFallbackEvaluation.technicalAccuracy ≤ 25 ∧
          getFallbackEvaluation.communication ≤ 35) ∧
        getFallbackEvaluation.overallScore =
          (jsRound ((getFallbackEvaluation.relevance + getFallbackEvaluation.completeness
            + getFallbackEvaluation.technicalAccuracy
            + getFallbackEvaluation.communication) / 4) : ℚ) := by
      refine ⟨⟨by norm_num [getFallbackEvaluation], by norm_num [getFallbackEvaluation],
        by norm_num [getFallbackEvaluation], by norm_num [getFallbackEvaluation]⟩, ?_⟩
      show (28 : ℚ) = (jsRound ((30 + 25 + 20 + 35) / 4) : ℚ)
      norm_num [jsRound]
    cases outcome with
    | failure =>
      simp only [evaluateAnswer, hpv]
      exact ⟨hfb.1.1, hfb.1.2.1, hfb.1.2.2.1, hfb.1.2.2.2, fun _ => hfb.2,
        fun g hg => by simp at hg⟩
    | response r =>
      by_cases hv : responseScoresValid r = true
      · have he : evaluateAnswer (.response r) q a = ⟨enforceEvaluation a r, true⟩ := by
          simp only [evaluateAnswer, hpv]
          rw [if_pos hv]
        rw [he]
        have hcap : enforceEvaluation a r =
            { relevance := min r.relevance.toRat 40
              completeness := min r.completeness.toRat 30
              technicalAccuracy := min r.technicalAccuracy.toRat 25
              communication := min r.communication.toRat 35
              overallScore := (jsRound ((min r.relevance.toRat 40 + min r.completeness.toRat 30
                + min r.technicalAccuracy.toRat 25 + min r.communication.toRat 35) / 4) : ℚ)
              feedback := r.feedback
              suggestions := r.suggestions } := by
          simp only [enforceEvaluation]
          rw [if_pos h]
        rw [hcap]
        exact ⟨min_le_right _ _, min_le_right _ _, min_le_right _ _, min_le_right _ _,
          fun _ => rfl, fun g hg => by simp at hg⟩
      · have he : evaluateAnswer (.response r) q a = ⟨getFallbackEvaluation, true⟩ := by
          simp only [evaluateAnswer, hpv]
          rw [if_neg hv]
        rw [he]
        exact ⟨hfb.1.1, hfb.1.2.1, hfb.1.2.2.1, hfb.1.2.2.2, fun _ => hfb.2,
          fun g hg => by simp at hg⟩
  · have hmain : evaluateAnswer outcome q a = ⟨gateEvaluation g, false⟩ := by
      simp only [evaluateAnswer, hpv]
    have hband := preValidate_score_cases a q g hpv
    have hs12 : g.score ≤ 12 := by rcases hband with hb | hb | hb <;> omega
    have hsq : (g.score : ℚ) ≤ 12 := by exact_mod_cast hs12
    rw [hmain]
    refine ⟨?_, ?_, ?_, ?_, fun hnone => absurd hnone (by simp), fun g' hg' => ?_⟩
    · show (g.score : ℚ) ≤ 40
      linarith
    · show max 0 ((g.score : ℚ) - 5) ≤ 30
      exact max_le (by norm_num) (by linarith)
    · show max 0 ((g.score : ℚ) - 8) ≤ 25
      exact max_le (by norm_num) (by linarith)
    · show max 0 ((g.score : ℚ) + 5) ≤ 35
      exact max_le (by norm_num) (by linarith)
    · cases Option.some.inj hg'
      rfl

/-- A gate-passing answer of fewer than 20 characters. -/
def demoShortValidAnswer : List Char := "polymorphism ideas".toList

/-- C4 witness: an 18-character gate-passing answer has its sub-scores capped
and its overall recomputed as the rounded mean of the stored sub-scores. -/
theorem short_answer_evaluation_caps_witness :
    (trimTxt demoShortValidAnswer).length < 20 ∧
    (evaluateAnswer (.response demoEvalResponse) demoQuestion.questionText
        demoShortValidAnswer).evaluation.relevance ≤ 40 ∧
    (evaluateAnswer (.response demoEvalResponse) demoQuestion.questionText
        demoShortValidAnswer).evaluation.overallScore =
      (jsRound (((evaluateAnswer (.response demoEvalResponse) demoQuestion.questionText
          demoShortValidAnswer).evaluation.relevance
        + (evaluateAnswer (.response demoEvalResponse) demoQuestion.questionText
            demoShortValidAnswer).evaluation.completeness
        + (evaluateAnswer (.response demoEvalResponse) demoQuestion.questionText
            demoShortValidAnswer).evaluation.technicalAccuracy
        + (evaluateAnswer (.response demoEvalResponse) demoQuestion.questionText
            demoShortValidAnswer).evaluation.communication) / 4) : ℚ) :=
  ⟨by decide,
   (short_answer_evaluation_caps (.response demoEvalResponse)
      demoQuestion.questionText demoShortValidAnswer (by decide)).1,
   (short_answer_evaluation_caps (.response demoEvalResponse)
      demoQuestion.questionText demoShortValidAnswer (by decide)).2.2.2.2.1 (by decide)⟩

/-- A 12-character gibberish answer (one repeated letter). -/
def gibberishShortAnswer : List Char := "qqqqqqqqqqqq".toList

/-- C4 counterexample: this stored answer has text length under 20, yet its
stored overall score (the gate band 8) is not the rounded mean of its four
stored sub-scores (which is 6) — the claim's universally quantified equation
fails on gate-fired short answers. -/
theorem short_answer_overall_not_mean :
    (trimTxt gibberishShortAnswer).length < 20 ∧
    ¬ ((evaluateAnswer .failure demoQuestion.questionText
        gibberishShortAnswer).evaluation.overallScore =
      (jsRound (((evaluateAnswer .failure demoQuestion.questionText
          gibberishShortAnswer).evaluation.relevance
        + (evaluateAnswer .failure demoQuestion.questionText
            gibberishShortAnswer).evaluation.completeness
        + (evaluateAnswer .failure demoQuestion.questionText
            gibberishShortAnswer).evaluation.technicalAccuracy
        + (evaluateAnswer .failure demoQuestion.questionText
            gibberishShortAnswer).evaluation.communication) / 4) : ℚ)) := by
  refine ⟨by decide, ?_⟩
  have hpv : preValidateAnswer gibberishShortAnswer demoQuestion.questionText
      = some ⟨"Answer appears to be gibberish or non-meaningful", 8⟩ := by decide
  simp only [evaluateAnswer, hpv, gateEvaluation]
  norm_num [jsRound]

/-- C7: the aggregator is a total function (no input raises); it keeps only
records with a positive overall score; with no valid record it returns the
fixed fallback summary; otherwise it returns a summary whose count is the
number of valid records and whose every metric and every one of the seven
emotion channels is the rounded arithmetic mean over the valid records
alone. -/
theorem aggregate_facial_behavior (l : List FacialRecord) :
    (l.filter facialValid = [] →
      aggregateFacialAnalysis l = .fallback getFallbackFacialAnalysis) ∧
    (l.filter facialValid ≠ [] → ∃ s, aggregateFacialAnalysis l = .summary s) ∧
    (∀ s, aggregateFacialAnalysis l = .summary s →
      s.analysisCount = (l.filter facialValid).length ∧
      s.averageConfidence = jsRound (((l.filter facialValid).map fun r => r.confidence).sum
        / ((l.filter facialValid).length : ℚ)) ∧
      s.averageEyeContact = jsRound (((l.filter facialValid).map fun r => r.eyeContact).sum
        / ((l.filter facialValid).length : ℚ)) ∧
      s.averageSpeechClarity = jsRound (((l.filter facialValid).map fun r => r.speechClarity).sum
        / ((l.filter facialValid).length : ℚ)) ∧
      s.averageOverallScore = jsRound (((l.filter facialValid).map fun r => r.overallScore).sum
        / ((l.filter facialValid).length : ℚ)) ∧
      s.averageEmotions.happy = jsRound (((l.filter facialValid).map fun r => r.emotions.happy).sum
        / ((l.filter facialValid).length : ℚ)) ∧
      s.averageEmotions.sad = jsRound (((l.filter facialValid).map fun r => r.emotions.sad).sum
        / ((l.filter facialValid).length : ℚ)) ∧
      s.averageEmotions.angry = jsRound (((l.filter facialValid).map fun r => r.emotions.angry).sum
        / ((l.filter facialValid).length : ℚ)) ∧
      s.averageEmotions.fear = jsRound (((l.filter facialValid).map fun r => r.emotions.fear).sum
        / ((l.filter facialValid).length : ℚ)) ∧
      s.averageEmotions.surprise = jsRound (((l.filter facialValid).map fun r => r.emotions.surprise).sum
        / ((l.filter facialValid).length : ℚ)) ∧
      s.averageEmotions.disgust = jsRound (((l.filter facialValid).map fun r => r.emotions.disgust).sum
        / ((l.filter facialValid).length : ℚ)) ∧
      s.averageEmotions.neutral = jsRound (((l.filter facialValid).map fun r => r.emotions.neutral).sum
        / ((l.filter facialValid).length : ℚ))) := by
  by_cases hl : l.isEmpty
  · have hnil : l = [] := List.isEmpty_iff.mp hl
    subst hnil
    refine ⟨fun _ => rfl, fun hne => absurd rfl hne, fun s hs => ?_⟩
    exact FacialAggregate.noConfusion hs
  · by_cases hv : (l.filter facialValid).isEmpty
    · have hagg : aggregateFacialAnalysis l = .fallback getFallbackFacialAnalysis := by
        simp only [aggregateFacialAnalysis, hl, hv]
        rfl
      refine ⟨fun _ => hagg, fun hne => absurd (List.isEmpty_iff.mp hv) hne,
        fun s hs => ?_⟩
      rw [hagg] at hs
      exact FacialAggregate.noConfusion hs
    · have hfne : l.filter facialValid ≠ [] := by
        simpa [List.isEmpty_iff] using hv
      refine ⟨fun hfe => absurd hfe hfne, fun _ => ?_, fun s hs => ?_⟩
      · cases hagg : aggregateFacialAnalysis l with
        | fallback r =>
          exfalso
          simp [aggregateFacialAnalysis, hl, hv] at hagg
        | summary s => exact ⟨s, rfl⟩
      · simp only [aggregateFacialAnalysis, hl, hv, if_neg, Bool.false_eq_true,
          if_false] at hs
        cases FacialAggregate.summary.inj hs
        exact ⟨rfl, rfl, rfl, rfl, rfl, rfl, rfl, rfl, rfl, rfl, rfl, rfl⟩

/-- A flat emotion distribution for the aggregation witness records. -/
def demoEmotions : EmotionVec :=
  { happy := 40, sad := 5, angry := 5, fear := 10, surprise := 10, disgust := 5,
    neutral := 25 }

/-- The spec's aggregation example: behavioral records with overall scores
80, 0 and 60. -/
def demoFacialList : List FacialRecord :=
  [{ confidence := 70, emotions := demoEmotions, eyeContact := 60,
     speechClarity := 80, overallScore := 80, feedback := "steady" },
   { confidence := 0, emotions := demoEmotions, eyeContact := 0,
     speechClarity := 0, overallScore := 0, feedback := "no data" },
   { confidence := 80, emotions := demoEmotions, eyeContact := 70,
     speechClarity := 60, overallScore := 60, feedback := "steady" }]

/-- C7 witness: on records scoring 80, 0 and 60 the aggregator produces a
summary, and only the two valid entries are averaged: averageOverallScore is
(80 + 60) / 2 = 70. -/
theorem aggregate_facial_behavior_witness :
    (∃ s, aggregateFacialAnalysis demoFacialList = .summary s) ∧
    ∀ s, aggregateFacialAnalysis demoFacialList = .summary s →
      s.averageOverallScore = 70 ∧ s.analysisCount = 2 := by
  refine ⟨(aggregate_facial_behavior demoFacialList).2.1 (by decide),
    fun s hs => ⟨?_, ?_⟩⟩
  · have h := ((aggregate_facial_behavior demoFacialList).2.2 s hs).2.2.2.2.1
    rw [h]
    norm_num [jsRound, demoFacialList, facialValid, List.filter]
  · have h := ((aggregate_facial_behavior demoFacialList).2.2 s hs).1
    rw [h]
    norm_num [demoFacialList, facialValid, List.filter]

/-- A narrative collaborator response whose self-reported overall (50)
differs from the documented weighted sum of its own category scores (80). -/
def divergentAiResult : AiFinalResult :=
  { overallScore := 50
    categoryScores :=
      { technicalKnowledge := 80
        communication := 80
        problemSolving := 80
        confidence := 80
        facialAnalysis := 80 }
    strengths := ["attempted all questions"]
    weaknesses := ["unclear answers"]
    recommendations := ["practice more"]
    detailedFeedback := "mixed performance" }

/-- C1: the result route copies the narrative collaborator's overall score
and category scores verbatim into the stored FinalResult, so at the
divergent response the stored overall (50) differs from the fixed
25/20/25/15/15 weighted sum over the stored category scores (80) that the
spec and the repository documentation prescribe — the deterministic weighted
formula is not what the code implements. -/
theorem result_overall_taken_from_collaborator :
    (∀ (ai : AiFinalResult) (ct : ℤ) (qa tq : ℕ),
      (createFinalResult ai ct qa tq).overallScore = ai.overallScore ∧
      (createFinalResult ai ct qa tq).categoryScores = ai.categoryScores) ∧
    (createFinalResult (generateFinalResult (.response divergentAiResult) 5 5)
        600 5 5).overallScore = 50 ∧
    specWeightedOverall (createFinalResult
        (generateFinalResult (.response divergentAiResult) 5 5) 600 5 5).categoryScores
      = 80 ∧
    (createFinalResult (generateFinalResult (.response divergentAiResult) 5 5)
        600 5 5).overallScore
      ≠ specWeightedOverall (createFinalResult
          (generateFinalResult (.response divergentAiResult) 5 5) 600 5 5).categoryScores := by
  refine ⟨fun ai ct qa tq => ⟨rfl, rfl⟩, rfl, ?_, ?_⟩
  · norm_num [specWeightedOverall, createFinalResult, finalResultPreSave,
      generateFinalResult, divergentAiResult]
  · norm_num [specWeightedOverall, createFinalResult, finalResultPreSave,
      generateFinalResult, divergentAiResult]

/-- C2 witness: the spec's sixth scenario — saving with overall 74 yields
grade "C" and passed, saving with overall 69 yields grade "D" and not
passed. -/
theorem finalResult_grade_passed_consistent_witness :
    (finalResultPreSave { demoFinalResult with overallScore := 74 }).grade = "C" ∧
    (finalResultPreSave { demoFinalResult with overallScore := 74 }).passed = true ∧
    (finalResultPreSave { demoFinalResult with overallScore := 69 }).grade = "D" ∧
    ¬ (finalResultPreSave { demoFinalResult with overallScore := 69 }).passed = true :=
  ⟨(finalResult_grade_passed_consistent _).2.2.2.2.2.2.2.1 (by norm_num) (by norm_num),
   (finalResult_grade_passed_consistent _).1.mpr (by norm_num),
   (finalResult_grade_passed_consistent _).2.2.2.2.2.2.2.2.1 (by norm_num) (by norm_num),
   fun h => by
     have h70 := (finalResult_grade_passed_consistent
       { demoFinalResult with overallScore := 69 }).1.mp h
     norm_num at h70⟩

end PrepWise
